import Mathlib

/-!
Verification development for the google-maps-review-scraper repository.

The development shallowly embeds the review-decoding pipeline
(`src/parser.py`), the relative-date resolver (`src/time_utils.py`) and the
pagination/retry driver (`src/scraper.py`) into Lean.

Modelling conventions, stated once here:
* JSON values are modelled by `JVal`; JSON numbers are modelled as integers
  (the fields the code reads numerically are identifiers and microsecond
  timestamps; JSON objects are not produced by the endpoint and are omitted).
* Python instants (`datetime`) are modelled as the integer number of
  microseconds since 0001-01-01T00:00:00, the minimum of Python's `datetime`
  range; a value is representable exactly when it lies in `[0, dtTotalUs)`.
  `datetime.fromtimestamp` is modelled with a zero utc offset.
* Python durations (`timedelta`) are modelled in microseconds; the
  `timedelta` constructor overflows exactly when the normalized day count
  exceeds 999999999, i.e. for a non-negative duration `d`, when
  `tdMaxUs ≤ d`.
* The timestamp branch of `extract_review_data` wraps
  `int(x)`, `x / 1000000` and `datetime.fromtimestamp` in a handler for
  `(ValueError, TypeError, OSError)`.  `OverflowError` — raised by the
  int/int true division once the quotient exceeds the float range, and by
  `fromtimestamp` once the seconds value exceeds the platform `time_t`
  range (2^63 on the build platform) — is *not* in that tuple and escapes
  to the function-level blanket `except Exception`, which returns the
  record as built so far.  The model represents this by the abort branch
  guarded by `tsUncaughtBound`.
* Python `\s`/`str.strip` whitespace is modelled by the six ASCII
  whitespace characters, `\d` and `str.lower` by their ASCII behaviour.
-/

/-- A JSON value as produced by `json.loads` (numbers as integers,
objects omitted; the endpoint's envelope uses none). -/
inductive JVal where
  | null
  | bool (b : Bool)
  | num (n : Int)
  | str (s : String)
  | arr (xs : List JVal)

deriving instance DecidableEq for Except

/-- Python truthiness of a JSON value. -/
def truthy : JVal → Bool
  | .null => false
  | .bool b => b
  | .num n => n != 0
  | .str s => s != ""
  | .arr xs => !xs.isEmpty

/-- Python `len()`: defined on strings and lists, raises `TypeError`
(`none`) otherwise. -/
def pyLen : JVal → Option Nat
  | .str s => some s.length
  | .arr xs => some xs.length
  | _ => none

/-- Python indexing `v[i]` for in-range `i` (all uses in the source are
length-guarded); indexing a string yields a one-character string. -/
def pyIdx : JVal → Nat → JVal
  | .arr xs, i => xs.getD i .null
  | .str s, i => .str (String.mk [s.data.getD i ' '])
  | _, _ => .null

/-- Decimal digit character. -/
def digChar (d : Nat) : Char := Char.ofNat (48 + d)

/-- Decimal digits of a natural number, most significant first. -/
def natChars (n : Nat) : List Char :=
  if _h : n < 10 then [digChar n]
  else natChars (n / 10) ++ [digChar (n % 10)]
  decreasing_by exact Nat.div_lt_self (by omega) (by omega)

/-- Python `str()` of an integer. -/
def intStr : Int → String
  | .ofNat m => String.mk (natChars m)
  | .negSucc m => String.mk ('-' :: natChars (m + 1))

mutual
/-- Python `str()` of a JSON value. -/
def pyStr : JVal → String
  | .null => "None"
  | .bool b => if b then "True" else "False"
  | .num n => intStr n
  | .str s => s
  | .arr xs => "[" ++ reprJoin xs ++ "]"

/-- Python `repr()` of a JSON value (used by `str()` on list elements;
string escaping inside `repr` is modelled as plain single quoting). -/
def pyRepr : JVal → String
  | .null => "None"
  | .bool b => if b then "True" else "False"
  | .num n => intStr n
  | .str s => "'" ++ s ++ "'"
  | .arr xs => "[" ++ reprJoin xs ++ "]"

/-- Comma-joined `repr`s of list elements. -/
def reprJoin : List JVal → String
  | [] => ""
  | [x] => pyRepr x
  | x :: y :: rest => pyRepr x ++ ", " ++ reprJoin (y :: rest)
end

/-- ASCII whitespace recognised by Python's `\s` and `str.strip`. -/
def isPyWs (c : Char) : Bool :=
  c = ' ' || c = '\t' || c = '\n' || c = '\r' || c = '\x0b' || c = '\x0c'

/-- ASCII lower-casing, as `str.lower` acts on the strings involved. -/
def charLower (c : Char) : Char :=
  if 'A' ≤ c && c ≤ 'Z' then Char.ofNat (c.toNat + 32) else c

/-- `text.lower().strip()` on the character list. -/
def pyNormalize (s : String) : List Char :=
  ((s.data.map charLower).dropWhile isPyWs).reverse.dropWhile isPyWs |>.reverse

/-- Numeric value of a run of decimal digits. -/
def natOfDigits (cs : List Char) : Nat :=
  cs.foldl (fun a c => a * 10 + (c.toNat - 48)) 0

/-- `pat` is a leading segment of `cs`. -/
def leadMatch : List Char → List Char → Bool
  | [], _ => true
  | _ :: _, [] => false
  | a :: as, b :: bs => a = b && leadMatch as bs

/-- `pat` occurs somewhere in `cs` (Python `pat in s`). -/
def hasSubstr (pat : List Char) : List Char → Bool
  | [] => leadMatch pat []
  | c :: rest => leadMatch pat (c :: rest) || hasSubstr pat rest

/-- Microseconds per second. -/
def usPerSecond : Int := 1000000
/-- Microseconds per day. -/
def usPerDay : Int := 86400 * 1000000
/-- Number of microseconds in Python's full `datetime` range
(3652059 days from 0001-01-01 to 9999-12-31 inclusive); instants are
representable exactly on `[0, dtTotalUs)`. -/
def dtTotalUs : Int := 3652059 * usPerDay
/-- The instant 1970-01-01T00:00:00 (719162 days after `datetime.min`). -/
def epochUs : Int := 719162 * usPerDay
/-- Least non-negative duration rejected by the `timedelta` constructor
(normalized day count above 999999999). -/
def tdMaxUs : Int := 1000000000 * usPerDay
/-- Magnitude, in microseconds, at and above which the timestamp branch of
`extract_review_data` raises an uncaught `OverflowError` (seconds value at
or beyond the 2^63 `time_t` range; still larger values already overflow the
int/int true division). -/
def tsUncaughtBound : Int := 1000000 * (2 ^ 63)

/-- Exceptions distinguished by the model. -/
inductive PyErr where
  | overflow
  | valueError
  | typeError
deriving Repr, DecidableEq

/-- `datetime - timedelta` for a non-negative duration `d`: raises
`OverflowError` when the result leaves the representable range. -/
def dtSub (t d : Int) : Except PyErr (Option Int) :=
  if 0 ≤ t - d ∧ t - d < dtTotalUs then .ok (some (t - d)) else .error .overflow

/-- Outcome of matching a normalized relative-date string against the
resolver's patterns, in the source's order. -/
inductive DateMatch where
  | exact
  | yesterday
  | dur (us : Int)
  | nohit
deriving Repr, DecidableEq

/-- After a leading digit run: `\s*` then the unit word, an optional `s`,
`\s+` and `ago` (the regex tail of the `<integer> <unit> ago` patterns). -/
def unitTail (unit : List Char) (cs : List Char) : Bool :=
  let cs := cs.dropWhile isPyWs
  if leadMatch unit cs then
    let cs := cs.drop unit.length
    let cs := match cs with
      | 's' :: rest => rest
      | other => other
    match cs with
    | c :: _ => isPyWs c && leadMatch "ago".data (cs.dropWhile isPyWs)
    | [] => false
  else false

/-- Scan for `(\d+)\s*<unit>s?\s+ago`.  The flag records that the scan is
inside a digit run whose start already failed: a start inside such a run
shares the run's remainder and continuation, so it fails too and is
skipped (matching `re.search`'s leftmost-match semantics). -/
def searchNumUnitAux (unit : List Char) : Bool → List Char → Option Nat
  | _, [] => none
  | inRun, c :: rest =>
    if c.isDigit then
      if inRun then searchNumUnitAux unit true rest
      else
        let run := (c :: rest).takeWhile Char.isDigit
        if unitTail unit (rest.dropWhile Char.isDigit) then some (natOfDigits run)
        else searchNumUnitAux unit true rest
    else searchNumUnitAux unit false rest

/-- Leftmost match of `(\d+)\s*<unit>s?\s+ago` (`re.search`), returning the
captured integer. -/
def searchNumUnit (unit : List Char) (cs : List Char) : Option Nat :=
  searchNumUnitAux unit false cs

/-- The tail of the `a/an <unit> ago` patterns after the `a`/`an`:
`\s+` then the unit word, `\s+` and `ago`. -/
def singularTail (unit : List Char) (cs : List Char) : Bool :=
  match cs with
  | c :: _ =>
    isPyWs c &&
      (let cs := cs.dropWhile isPyWs
       leadMatch unit cs &&
         (match cs.drop unit.length with
          | d :: _ =>
            isPyWs d && leadMatch "ago".data ((cs.drop unit.length).dropWhile isPyWs)
          | [] => false))
  | [] => false

/-- `re.search` of `an?\s+<unit>\s+ago`. -/
def searchSingular (unit : List Char) : List Char → Bool
  | [] => false
  | c :: rest =>
    (c = 'a' &&
      ((match rest with
        | 'n' :: r2 => singularTail unit r2
        | _ => false) ||
       singularTail unit rest)) ||
    searchSingular unit rest

/-- The integer-quantity patterns, in the source's priority order, paired
with the microseconds contributed per unit of quantity (months count 30
days, years 365). -/
def intUnits : List (List Char × Int) :=
  [("second".data, usPerSecond),
   ("minute".data, 60 * usPerSecond),
   ("hour".data, 3600 * usPerSecond),
   ("day".data, usPerDay),
   ("week".data, 7 * usPerDay),
   ("month".data, 30 * usPerDay),
   ("year".data, 365 * usPerDay)]

/-- The `a/an` patterns, in the source's priority order, with their fixed
durations. -/
def singularUnits : List (List Char × Int) :=
  [("second".data, usPerSecond),
   ("minute".data, 60 * usPerSecond),
   ("hour".data, 3600 * usPerSecond),
   ("day".data, usPerDay),
   ("week".data, 7 * usPerDay),
   ("month".data, 30 * usPerDay),
   ("year".data, 365 * usPerDay)]

/-- First integer pattern that matches, as a duration in microseconds. -/
def findIntAny (cs : List Char) : Option Int :=
  intUnits.findSome? fun p =>
    (searchNumUnit p.1 cs).map fun v => (v : Int) * p.2

/-- First `a/an` pattern that matches, as a duration in microseconds. -/
def findSingularAny (cs : List Char) : Option Int :=
  singularUnits.findSome? fun p =>
    if searchSingular p.1 cs then some p.2 else none

/-- Classification of a normalized relative-date string, following the
branch order of `parse_relative_date`. -/
def classifyNorm (cs : List Char) : DateMatch :=
  if cs = "just now".data ∨ cs = "now".data ∨ cs = "today".data then .exact
  else if hasSubstr "yesterday".data cs then .yesterday
  else
    match findIntAny cs with
    | some d => .dur d
    | none =>
      match findSingularAny cs with
      | some d => .dur d
      | none => .nohit

/-- `parse_relative_date` of `src/time_utils.py`: the reference instant is
taken directly (modelling the case of a valid ISO reference string).
Returns `.ok none` when the text is empty or matches no pattern; raises
(`.error .overflow`) when the matched duration overflows the `timedelta`
constructor or the subtraction leaves the `datetime` range. -/
def parse_relative_date (text : String) (ref : Int) : Except PyErr (Option Int) :=
  if text = "" then .ok none
  else
    match classifyNorm (pyNormalize text) with
    | .exact => .ok (some ref)
    | .yesterday => dtSub ref usPerDay
    | .dur d => if d < tdMaxUs then dtSub ref d else .error .overflow
    | .nohit => .ok none


/-- One normalized review record: the 15 fields of
`GoogleMapsResponseParser.extract_review_data`'s result dictionary, in the
source's insertion order.  Instants (`text_date`, `response_text_date`,
`retrieval_date`) are carried as microsecond counts rather than their ISO
renderings; `rating` is integral because model JSON numbers are. -/
structure ReviewRecord where
  review_id : String := ""
  user_name : String := ""
  user_url : String := ""
  user_reviews : Nat := 0
  rating : Int := 0
  relative_date : String := ""
  text : String := ""
  text_date : Option Int := none
  translated_text : String := ""
  likes : Int := 0
  response_text : String := ""
  response_relative_date : String := ""
  response_text_date : Option Int := none
  translated_response_text : String := ""
  retrieval_date : Int
deriving Repr, DecidableEq

/-- The fully defaulted record (`result` as initialized at the top of
`extract_review_data`), stamped with the retrieval instant. -/
def defaultRecord (now : Int) : ReviewRecord := { retrieval_date := now }

/-- Python `int(x)` on a JSON value: `ValueError` on a non-numeric string,
`TypeError` on `None`/lists.  String parsing: optional surrounding
whitespace, optional sign, one or more digits. -/
def parseIntStr (s : String) : Option Int :=
  let cs := (s.data.dropWhile isPyWs).reverse.dropWhile isPyWs |>.reverse
  let core : List Char → Option Int := fun ds =>
    if ds ≠ [] ∧ ds.all Char.isDigit then some (natOfDigits ds) else none
  match cs with
  | '-' :: ds => (core ds).map (fun n => -n)
  | '+' :: ds => core ds
  | ds => core ds

/-- Python `int(x)`. -/
def pyInt : JVal → Except PyErr Int
  | .num n => .ok n
  | .bool b => .ok (if b then 1 else 0)
  | .str s =>
    match parseIntStr s with
    | some n => .ok n
    | none => .error .valueError
  | _ => .error .typeError

/-- `datetime.fromtimestamp(ts / 1000000)` for an in-`time_t`-range
timestamp, with a zero utc offset: `some` instant when the result lies in
the `datetime` range, `none` for the locally caught
`ValueError`/`OSError` cases. -/
def fromtimestamp (tsUs : Int) : Option Int :=
  if 0 ≤ epochUs + tsUs ∧ epochUs + tsUs < dtTotalUs then some (epochUs + tsUs) else none

/-- The timestamp branch shared by metadata index 2 and response index 1:
`int(x)`, microsecond division and `fromtimestamp` under a handler for
`(ValueError, TypeError, OSError)`.  `.error ()` is the uncaught
`OverflowError` (magnitude at or beyond `tsUncaughtBound`), which escapes
to the function-level handler; `.ok none` leaves the field unset. -/
def tsStep (x : JVal) : Except Unit (Option Int) :=
  match pyInt x with
  | .error _ => .ok none
  | .ok ts =>
    if tsUncaughtBound ≤ ts ∨ ts ≤ -tsUncaughtBound then .error ()
    else .ok (fromtimestamp ts)

/-- `re.search(r"(\d+)", s)`: value of the leftmost digit run. -/
def firstRunAux : List Char → Option Nat
  | [] => none
  | c :: rest =>
    if c.isDigit then some (natOfDigits ((c :: rest).takeWhile Char.isDigit))
    else firstRunAux rest

/-- `re.search(r"(\d+)", s)` on a string. -/
def firstIntRun (s : String) : Option Nat := firstRunAux s.data

/-- The user-info block at `metadata[4][5]`: name, nested profile url,
first digit run of the review-count text. -/
def userPhase (r : ReviewRecord) (u : JVal) : ReviewRecord :=
  match u with
  | .arr ui =>
    let r := if 0 < ui.length ∧ truthy (ui.getD 0 .null) then
        { r with user_name := pyStr (ui.getD 0 .null) } else r
    let r := if 2 < ui.length then
        match ui.getD 2 .null with
        | .arr l2 => if 0 < l2.length then { r with user_url := pyStr (l2.getD 0 .null) } else r
        | _ => r
      else r
    if 10 < ui.length then
      match ui.getD 10 .null with
      | .arr l10 =>
        if 0 < l10.length then
          match firstIntRun (pyStr (l10.getD 0 .null)) with
          | some k => { r with user_reviews := k }
          | none => r
        else r
      | _ => r
    else r
  | _ => r

/-- The timestamp step at `metadata[2]`: sets `text_date`, leaves it, or
aborts (`.error`, carrying the record built so far). -/
def metaTs (r : ReviewRecord) (md : List JVal) : Except ReviewRecord ReviewRecord :=
  if 2 < md.length ∧ truthy (md.getD 2 .null) then
    match tsStep (md.getD 2 .null) with
    | .error _ => .error r
    | .ok (some d) => .ok { r with text_date := some d }
    | .ok none => .ok r
  else .ok r

/-- The rest of the metadata block: user info at `metadata[4][5]` and the
relative date at `metadata[6]`. -/
def metaRest (r : ReviewRecord) (md : List JVal) : ReviewRecord :=
  let r :=
    if 4 < md.length then
      match md.getD 4 .null with
      | .arr m4 => if 5 < m4.length then userPhase r (m4.getD 5 .null) else r
      | _ => r
    else r
  if 6 < md.length ∧ truthy (md.getD 6 .null) then
    { r with relative_date := pyStr (md.getD 6 .null) }
  else r

/-- The metadata block at `review_array[1]`: timestamp (may abort with the
uncaught overflow), user info, relative date. -/
def metaPhase (r : ReviewRecord) (m : JVal) : Except ReviewRecord ReviewRecord :=
  match m with
  | .arr md =>
    match metaTs r md with
    | .error r => .error r
    | .ok r => .ok (metaRest r md)
  | _ => .ok r

/-- The content block at `review_array[2]`: rating (`isinstance(x,
(int, float))` — which in Python also admits `bool`) and review text. -/
def contentPhase (r : ReviewRecord) (c : JVal) : ReviewRecord :=
  match c with
  | .arr ct =>
    let r :=
      if 0 < ct.length then
        match ct.getD 0 .null with
        | .arr l0 =>
          if 0 < l0.length then
            match l0.getD 0 .null with
            | .num x => { r with rating := x }
            | .bool b => { r with rating := if b then 1 else 0 }
            | _ => r
          else r
        | _ => r
      else r
    if 15 < ct.length then
      match ct.getD 15 .null with
      | .arr l15 =>
        if 0 < l15.length then
          match l15.getD 0 .null with
          | .arr tc =>
            if 0 < tc.length then
              match tc.getD 0 .null with
              | .str t => { r with text := t }
              | _ => r
            else r
          | _ => r
        else r
      | _ => r
    else r
  | _ => r

/-- The timestamp step at `response_data[1]`: sets `response_text_date`,
leaves it, or aborts. -/
def responseTs (r : ReviewRecord) (rd : List JVal) : Except ReviewRecord ReviewRecord :=
  if 1 < rd.length ∧ truthy (rd.getD 1 .null) then
    match tsStep (rd.getD 1 .null) with
    | .error _ => .error r
    | .ok (some d) => .ok { r with response_text_date := some d }
    | .ok none => .ok r
  else .ok r

/-- The rest of the response block: relative date at `response_data[3]`
and response text at `response_data[14][0][0]`. -/
def responseRest (r : ReviewRecord) (rd : List JVal) : ReviewRecord :=
  let r :=
    if 3 < rd.length ∧ truthy (rd.getD 3 .null) then
      { r with response_relative_date := pyStr (rd.getD 3 .null) }
    else r
  if 14 < rd.length then
    match rd.getD 14 .null with
    | .arr l14 =>
      if 0 < l14.length then
        match l14.getD 0 .null with
        | .arr rc =>
          if 0 < rc.length then
            match rc.getD 0 .null with
            | .str t => { r with response_text := t }
            | _ => r
          else r
        | _ => r
      else r
    | _ => r
  else r

/-- The owner-response block at `review_array[3]`: response timestamp
(same uncaught-overflow abort as the metadata timestamp), relative date,
response text. -/
def responsePhase (r : ReviewRecord) (x : JVal) : Except ReviewRecord ReviewRecord :=
  match x with
  | .arr rd =>
    match responseTs r rd with
    | .error r => .error r
    | .ok r => .ok (responseRest r rd)
  | _ => .ok r

/-- The relative-date fallbacks at the end of `extract_review_data`: each
`parse_relative_date` call is wrapped in `except Exception`, with the
retrieval instant as reference. -/
def fallbackPhase (now : Int) (r : ReviewRecord) : ReviewRecord :=
  let r :=
    if r.relative_date ≠ "" ∧ r.text_date = none then
      match parse_relative_date r.relative_date now with
      | .ok (some d) => { r with text_date := some d }
      | _ => r
    else r
  if r.response_relative_date ≠ "" ∧ r.response_text_date = none then
    match parse_relative_date r.response_relative_date now with
    | .ok (some d) => { r with response_text_date := some d }
    | _ => r
  else r

/-- The part of `extract_review_data` after the review id: metadata block
(whose timestamp may abort), content block at index 2, response block at
index 3 (may also abort), then the relative-date fallbacks. -/
def afterId (now : Int) (v : JVal) (n : Nat) (r1 : ReviewRecord) : ReviewRecord :=
  match metaPhase r1 (pyIdx v 1) with
  | .error r => r
  | .ok r2 =>
    let r3 := if 2 < n then contentPhase r2 (pyIdx v 2) else r2
    match (if 3 < n then responsePhase r3 (pyIdx v 3) else .ok r3) with
    | .error r => r
    | .ok r4 => fallbackPhase now r4

/-- `GoogleMapsResponseParser.extract_review_data` (the spec's
`map_review`): builds the 15-field record, degrading per field; an
uncaught `OverflowError` in either timestamp branch is absorbed by the
function-level handler, which returns the record as built so far. -/
def extract_review_data (now : Int) (v : JVal) : ReviewRecord :=
  let r0 := defaultRecord now
  if !truthy v then r0
  else
    match pyLen v with
    | none => r0
    | some n =>
      if n < 2 then r0
      else
        afterId now v n
          (if truthy (pyIdx v 0) then { r0 with review_id := pyStr (pyIdx v 0) } else r0)

/-- `GoogleMapsResponseParser.extract_pagination_token` (the spec's
`extract_cursor`) on an envelope. -/
def extract_pagination_token (data : List JVal) : String :=
  if 1 < data.length ∧ truthy (data.getD 1 .null) then pyStr (data.getD 1 .null) else ""

/-- `GoogleMapsResponseParser.extract_reviews` (the spec's
`extract_records`): the third top-level element as a list of wrappers,
each wrapper's first element mapped through `extract_review_data`. -/
def extract_reviews (now : Int) (data : List JVal) : List ReviewRecord :=
  if 2 < data.length ∧ truthy (data.getD 2 .null) then
    match data.getD 2 .null with
    | .arr items =>
      items.filterMap fun it =>
        match it with
        | .arr (x :: _) => some (extract_review_data now x)
        | _ => none
    | _ => []
  else []

/-- Output format selector (`Literal["json", "csv"]`). -/
inductive OutFormat where
  | json
  | csv
deriving Repr, DecidableEq

/-- JSON string escaping as `json.dump` emits it with
`ensure_ascii=False` (quote, backslash and the common control
characters; other characters pass through). -/
def escChar (c : Char) : List Char :=
  if c = '"' then ['\\', '"']
  else if c = '\\' then ['\\', '\\']
  else if c = '\n' then ['\\', 'n']
  else if c = '\t' then ['\\', 't']
  else if c = '\r' then ['\\', 'r']
  else [c]

/-- A JSON string literal. -/
def jsonStr (s : String) : String :=
  "\"" ++ String.mk (s.data.foldr (fun c acc => escChar c ++ acc) []) ++ "\""

/-- Rendering of an instant as the dictionaries carry it (ISO strings in
the source; the model renders the microsecond count — the concrete digits
are irrelevant to the stated properties). -/
def isoStr (d : Int) : String := intStr d

/-- The 15 `"key": value` lines of one record, in the dictionary's
insertion order. -/
def jsonFields (r : ReviewRecord) : List String :=
  ["\"review_id\": " ++ jsonStr r.review_id,
   "\"user_name\": " ++ jsonStr r.user_name,
   "\"user_url\": " ++ jsonStr r.user_url,
   "\"user_reviews\": " ++ intStr r.user_reviews,
   "\"rating\": " ++ intStr r.rating,
   "\"relative_date\": " ++ jsonStr r.relative_date,
   "\"text\": " ++ jsonStr r.text,
   "\"text_date\": " ++ (match r.text_date with | some d => jsonStr (isoStr d) | none => "null"),
   "\"translated_text\": " ++ jsonStr r.translated_text,
   "\"likes\": " ++ intStr r.likes,
   "\"response_text\": " ++ jsonStr r.response_text,
   "\"response_relative_date\": " ++ jsonStr r.response_relative_date,
   "\"response_text_date\": " ++ (match r.response_text_date with | some d => jsonStr (isoStr d) | none => "null"),
   "\"translated_response_text\": " ++ jsonStr r.translated_response_text,
   "\"retrieval_date\": " ++ jsonStr (isoStr r.retrieval_date)]

/-- Join with a separator. -/
def joinSep (sep : String) : List String → String
  | [] => ""
  | [x] => x
  | x :: y :: rest => x ++ sep ++ joinSep sep (y :: rest)

/-- `json.dump(reviews, f, indent=2, ensure_ascii=False)`. -/
def jsonOfReviews (revs : List ReviewRecord) : String :=
  match revs with
  | [] => "[]"
  | _ =>
    "[\n" ++
      joinSep ",\n" (revs.map fun r => "  \x7b\n" ++ joinSep ",\n" ((jsonFields r).map ("    " ++ ·)) ++ "\n  \x7d") ++
    "\n]"

/-- CSV field quoting (`QUOTE_MINIMAL`): quote when the field holds the
delimiter, the quote character or a line break, doubling quotes. -/
def csvField (s : String) : String :=
  if s.data.any (fun c => c = ',' || c = '"' || c = '\n' || c = '\r') then
    "\"" ++ String.mk (s.data.foldr (fun c acc => if c = '"' then '"' :: '"' :: acc else c :: acc) []) ++ "\""
  else s

/-- The fixed CSV column order of `_save_to_temp`/`_save_final_output`. -/
def csvHeader : String :=
  "review_id,user_name,user_url,user_reviews,rating,relative_date,text_date,text,response_text,response_relative_date,response_text_date,retrieval_date"

/-- One CSV row (`DictWriter` with `extrasaction="ignore"`: the three
reserved fields are dropped; `None` renders empty). -/
def csvRow (r : ReviewRecord) : String :=
  joinSep ","
    [csvField r.review_id, csvField r.user_name, csvField r.user_url,
     intStr r.user_reviews, intStr r.rating, csvField r.relative_date,
     (match r.text_date with | some d => csvField (isoStr d) | none => ""),
     csvField r.text, csvField r.response_text, csvField r.response_relative_date,
     (match r.response_text_date with | some d => csvField (isoStr d) | none => ""),
     csvField (isoStr r.retrieval_date)]

/-- The CSV serialization (header plus one row per record, `\r\n`
terminated). -/
def csvOfReviews (revs : List ReviewRecord) : String :=
  csvHeader ++ "\r\n" ++ String.join (revs.map fun r => csvRow r ++ "\r\n")

/-- What one save call writes: JSON always rewrites the file; CSV only
writes when the accumulator is nonempty (`if reviews:`). -/
def serializeReviews (revs : List ReviewRecord) : OutFormat → Option String
  | .json => some (jsonOfReviews revs)
  | .csv => if revs.isEmpty then none else some (csvOfReviews revs)

/-- `GoogleMapsReviewsScraper._save_to_temp` (the spec's `checkpoint`) as a
transformer of the checkpoint file's contents: opening with mode `"w"`
truncates, so a write replaces the contents wholesale; when nothing is
written the previous contents remain. -/
def _save_to_temp (prev : Option String) (revs : List ReviewRecord) (fmt : OutFormat) : Option String :=
  match serializeReviews revs fmt with
  | some s => some s
  | none => prev

/-- `GoogleMapsReviewsScraper._save_final_output` (the spec's `finalize`),
same serialization and overwrite behaviour on the output file. -/
def _save_final_output (prev : Option String) (revs : List ReviewRecord) (fmt : OutFormat) : Option String :=
  match serializeReviews revs fmt with
  | some s => some s
  | none => prev

/-- Outcome of one page request as consumed by the driver: a raised
transport/status error, or the `parse_response` result (`none` for a JSON
parse failure). -/
inductive ReqResult where
  | exn
  | ok (data : Option (List JVal))

/-- The scraper configuration relevant to the driver's behaviour
(`n_retries` from the constructor, per-call target count, format, and
whether an output path was given; the timing parameters only affect
delays). -/
structure ScrapeCfg where
  n_retries : Nat
  n_reviews : Option Nat
  fmt : OutFormat
  hasOutput : Bool

/-- Driver state across the loop of `scrape_reviews`: accumulator, current
cursor, the remaining response script, the number of page requests issued,
and the contents of the checkpoint (temp) and final output files
(`none` = not present/never written). -/
structure DrvSt where
  acc : List ReviewRecord
  token : String
  script : List ReqResult
  issued : Nat
  temp : Option String
  finalW : Option String

/-- Result of the inner retry loop (`while retries > 0`): fell through to
the post-page checks (success-`break`, short-envelope-`break`, or a zero
retry budget), exhausted the budget (`raise`), or ran out of scripted
responses (modelling artifact). -/
inductive AttemptOut where
  | ok (st : DrvSt)
  | exhausted (st : DrvSt)
  | noScript (st : DrvSt)

/-- The retry loop of `scrape_reviews`: one request per iteration; on an
exception decrement and retry, raising when the budget reaches zero; on
success parse, and either `break` on a short envelope (cursor and
accumulator untouched) or extract the cursor and reviews, extend the
accumulator and checkpoint it. -/
def attempt (now : Int) (cfg : ScrapeCfg) : Nat → DrvSt → AttemptOut
  | 0, st => .ok st
  | r + 1, st =>
    match st.script with
    | [] => .noScript st
    | resp :: rest =>
      let st1 := { st with script := rest, issued := st.issued + 1 }
      match resp with
      | .exn => if r = 0 then .exhausted st1 else attempt now cfg r st1
      | .ok none => .ok st1
      | .ok (some env) =>
        if env.length < 3 then .ok st1
        else
          let acc2 := st1.acc ++ extract_reviews now env
          .ok { st1 with
                  acc := acc2,
                  token := extract_pagination_token env,
                  temp := _save_to_temp st1.temp acc2 cfg.fmt }

/-- `if n_reviews and len(all_reviews) >= n_reviews` (Python truthiness:
a target of `0` fails the guard). -/
def targetHit (t : Option Nat) (len : Nat) : Bool :=
  match t with
  | some k => k != 0 && decide (k ≤ len)
  | none => false

/-- `all_reviews[:n_reviews] if n_reviews else all_reviews`. -/
def trimFinal (t : Option Nat) (acc : List ReviewRecord) : List ReviewRecord :=
  match t with
  | some k => if k ≠ 0 then acc.take k else acc
  | none => acc

/-- State updates of the post-loop epilogue: write the trimmed accumulator
to the output file when a path was given, then unlink the temp file. -/
def finishSt (cfg : ScrapeCfg) (st : DrvSt) : DrvSt :=
  let fin := trimFinal cfg.n_reviews st.acc
  let st := if cfg.hasOutput then { st with finalW := _save_final_output st.finalW fin cfg.fmt } else st
  { st with temp := none }

/-- State updates on retry exhaustion (`if all_reviews and output_file:`
flush the partial accumulator to the output path; the temp file is left
as is). -/
def exhaustSt (cfg : ScrapeCfg) (st : DrvSt) : DrvSt :=
  if !st.acc.isEmpty && cfg.hasOutput then
    { st with finalW := _save_final_output st.finalW st.acc cfg.fmt }
  else st

/-- Result of one scrape invocation: normal return with the (possibly
trimmed) review list, a propagated failure, or the modelling artifacts of
exhausted fuel / script. -/
inductive RunResult where
  | success (reviews : List ReviewRecord) (st : DrvSt)
  | failure (st : DrvSt)
  | outOfFuel (st : DrvSt)
  | outOfScript (st : DrvSt)

/-- The outer `while True` loop of `scrape_reviews` with the post-page
checks in the source's order: target reached → trim, finalize, success;
no cursor → finalize, success; otherwise sleep and fetch the next page. -/
def runLoop (now : Int) (cfg : ScrapeCfg) : Nat → DrvSt → RunResult
  | 0, st => .outOfFuel st
  | fuel + 1, st =>
    match attempt now cfg cfg.n_retries st with
    | .noScript st1 => .outOfScript st1
    | .exhausted st1 => .failure (exhaustSt cfg st1)
    | .ok st1 =>
      if targetHit cfg.n_reviews st1.acc.length then
        .success (trimFinal cfg.n_reviews st1.acc) (finishSt cfg st1)
      else if st1.token = "" then
        .success (trimFinal cfg.n_reviews st1.acc) (finishSt cfg st1)
      else runLoop now cfg fuel st1

/-- The state at the start of an invocation: empty accumulator, empty
cursor, no checkpoint yet. -/
def initSt (script : List ReqResult) : DrvSt :=
  { acc := [], token := "", script := script, issued := 0, temp := none, finalW := none }

/-- Hexadecimal digit (the regex class `[0-9a-fA-F]`). -/
def isHexChar (c : Char) : Bool :=
  c.isDigit || ('a' ≤ c && c ≤ 'f') || ('A' ≤ c && c ≤ 'F')

/-- Match of `0[xX][0-9a-fA-F]+:0[xX][0-9a-fA-F]+` anchored at the head
(greedy hex runs; a shorter run is never followed by `:`/end-of-pattern
characters, so greediness is exact). -/
def tryFeature (cs : List Char) : Option (List Char) :=
  match cs with
  | '0' :: c :: rest =>
    if c = 'x' || c = 'X' then
      let h1 := rest.takeWhile isHexChar
      if h1.isEmpty then none
      else
        match rest.dropWhile isHexChar with
        | ':' :: '0' :: c2 :: rest2 =>
          if c2 = 'x' || c2 = 'X' then
            let h2 := rest2.takeWhile isHexChar
            if h2.isEmpty then none
            else some ('0' :: c :: h1 ++ ':' :: '0' :: c2 :: h2)
          else none
        | _ => none
    else none
  | _ => none

/-- `re.search` of the feature-id pattern
(`_parse_url_to_feature_id`). -/
def searchFeature : List Char → Option (List Char)
  | [] => none
  | c :: rest =>
    match tryFeature (c :: rest) with
    | some m => some m
    | none => searchFeature rest

/-- `GoogleMapsReviewsScraper.scrape_reviews`: extract the feature id from
the url (`.error ()` is the fatal `ValueError`), then run the
pagination/retry loop against the scripted responses.  `hl`/`verbose`
only affect the request url and logging; the retrieval instant `now` and
the response script abstract the clock and the transport. -/
def scrape_reviews (n_retries : Nat) (url : String) (n_reviews : Option Nat)
    (fmt : OutFormat) (hasOutput : Bool) (now : Int) (script : List ReqResult)
    (fuel : Nat) : Except Unit RunResult :=
  match searchFeature url.data with
  | none => .error ()
  | some _ =>
    .ok (runLoop now
          { n_retries := n_retries, n_reviews := n_reviews, fmt := fmt, hasOutput := hasOutput }
          fuel (initSt script))

/-- `GoogleMapsReviewsScraperSync.scrape_reviews`: the blocking wrapper
constructs the inner scraper with the forwarded constructor parameters and
runs the coroutine to completion (`asyncio.run`) with the forwarded call
arguments. -/
def scrape_reviews_sync (n_retries : Nat) (url : String) (n_reviews : Option Nat)
    (fmt : OutFormat) (hasOutput : Bool) (now : Int) (script : List ReqResult)
    (fuel : Nat) : Except Unit RunResult :=
  scrape_reviews n_retries url n_reviews fmt hasOutput now script fuel

/-- Requests issued during a run. -/
def issuedOf : RunResult → Nat
  | .success _ st => st.issued
  | .failure st => st.issued
  | .outOfFuel st => st.issued
  | .outOfScript st => st.issued

/-- Whether the run returned normally. -/
def isSuccess : RunResult → Bool
  | .success _ _ => true
  | _ => false

/-- Number of returned records, when the run returned normally. -/
def reviewsLen : RunResult → Option Nat
  | .success revs _ => some revs.length
  | _ => none

/-- Final-output file contents at the end of a run. -/
def finalWOf : RunResult → Option String
  | .success _ st => st.finalW
  | .failure st => st.finalW
  | .outOfFuel st => st.finalW
  | .outOfScript st => st.finalW

/-- Checkpoint (temp) file contents at the end of a run. -/
def tempOf : RunResult → Option String
  | .success _ st => st.temp
  | .failure st => st.temp
  | .outOfFuel st => st.temp
  | .outOfScript st => st.temp

/-- Whether the run propagated a failure. -/
def isFailure : RunResult → Bool
  | .failure _ => true
  | _ => false

/-- The carried state of an attempt outcome. -/
def attemptSt : AttemptOut → DrvSt
  | .ok st => st
  | .exhausted st => st
  | .noScript st => st

/-- An envelope with the given second element as cursor source and one
wrapped review carrying the given id. -/
def envWith (tok : JVal) (rid : String) : List JVal :=
  [.null, tok, .arr [.arr [.arr [.str rid, .null]]]]

/-- The record decoded from a wrapped review `[rid, null]`. -/
def plainRec (now : Int) (rid : String) : ReviewRecord :=
  { defaultRecord now with review_id := rid }

def cfgC1 : ScrapeCfg := { n_retries := 1, n_reviews := none, fmt := .json, hasOutput := false }
def scriptC1 : List ReqResult :=
  [.ok (some (envWith (.str "T1") "id1")), .ok (some []), .ok (some [])]


def cfgC3 : ScrapeCfg := { n_retries := 1, n_reviews := some 0, fmt := .json, hasOutput := false }
def scriptC3 : List ReqResult :=
  [.ok (some (envWith (.str "T1") "id1")), .ok (some (envWith .null "id2"))]


def cfgC4 : ScrapeCfg := { n_retries := 1, n_reviews := none, fmt := .json, hasOutput := true }

/-- A metadata block carrying a timestamp, a user name at the
`metadata[4][5][0]` slot and a relative date at `metadata[6]`. -/
def metaAlice (ts : Int) : JVal :=
  .arr [.null, .null, .num ts, .null,
        .arr [.null, .null, .null, .null, .null, .arr [.str "Alice"]],
        .null, .str "2 weeks ago"]

/-- A review array whose timestamp overflows the uncaught range. -/
def rawBig : JVal := .arr [.str "id1", metaAlice (10 ^ 400)]

/-- The same review array with an in-range timestamp. -/
def rawOk : JVal := .arr [.str "id1", metaAlice 1700000000000000]

/-- The value of either abort-capable phase, error or not. -/
def exVal : Except ReviewRecord ReviewRecord → ReviewRecord
  | .error r => r
  | .ok r => r

/-- Duration matched by the resolver's `yesterday`/quantity patterns. -/
def matchedDur (text : String) : Option Int :=
  match classifyNorm (pyNormalize text) with
  | .yesterday => some usPerDay
  | .dur d => some d
  | _ => none

/-- Config with a positive target of one review. -/
def cfgC3w : ScrapeCfg := { n_retries := 1, n_reviews := some 1, fmt := .json, hasOutput := false }

/-- One page yielding one record and a nonempty cursor. -/
def scriptC3w : List ReqResult := [.ok (some (envWith (.str "T1") "id1"))]

/-- The driver state after that page's retry loop. -/
def stC3w : DrvSt := attemptSt (attempt 0 cfgC3w cfgC3w.n_retries (initSt scriptC3w))

/-- Config with an output path given. -/
def cfgC4w : ScrapeCfg := { n_retries := 1, n_reviews := none, fmt := .json, hasOutput := true }

/-- A mid-run state: one record accumulated, a checkpoint on disk, and a
transport failure scripted next. -/
def stC4w : DrvSt :=
  { acc := [plainRec 0 "idA"], token := "T1", script := [.exn], issued := 1,
    temp := some "chk", finalW := none }

/-- The state after that failing page exhausts the budget. -/
def stC4x : DrvSt := attemptSt (attempt 0 cfgC4w cfgC4w.n_retries stC4w)

example : parse_relative_date "2 weeks ago" epochUs = .ok (some (epochUs - 14 * usPerDay)) := by decide
example : parse_relative_date "a month ago" epochUs = .ok (some (epochUs - 30 * usPerDay)) := by decide
example : parse_relative_date "yesterday" epochUs = .ok (some (epochUs - usPerDay)) := by decide
example : parse_relative_date "" epochUs = .ok none := by decide
example : parse_relative_date "gibberish" epochUs = .ok none := by decide
example : parse_relative_date "Just  Now" epochUs = .ok none := by decide
example : parse_relative_date " Today " epochUs = .ok (some epochUs) := by decide
example : parse_relative_date "2000000000 days ago" epochUs = .error .overflow := by decide
example : parse_relative_date "yesterday" 0 = .error .overflow := by decide
example : parse_relative_date "3 months ago" epochUs = .ok (some (epochUs - 90 * usPerDay)) := by decide
set_option maxRecDepth 4000 in
example : extract_review_data 0 (.arr [.str "id1"]) = defaultRecord 0 := by decide
example : (extract_review_data 0 (.arr [.str "id1", .null])).review_id = "id1" := by decide
example : extract_review_data 0 .null = defaultRecord 7 → False := by decide
example : (extract_review_data 5 (.num 3)) = defaultRecord 5 := by decide
set_option maxRecDepth 8000 in
example :
    extract_review_data 0
      (.arr [.str "id1",
             .arr [.null, .null, .num (10 ^ 400), .null,
                   .arr [.null, .null, .null, .null, .null, .arr [.str "Alice"]],
                   .null, .str "2 weeks ago"]]) =
      { defaultRecord 0 with review_id := "id1" } := by decide
set_option maxRecDepth 8000 in
example :
    (extract_review_data epochUs
      (.arr [.str "id1",
             .arr [.null, .null, .num 1700000000000000, .null,
                   .arr [.null, .null, .null, .null, .null,
                         .arr [.str "Alice", .null, .arr [.str "http://u"], .null, .null,
                               .null, .null, .null, .null, .null, .arr [.str "12 reviews"]]],
                   .null, .str "2 weeks ago"]])) =
      { defaultRecord epochUs with
          review_id := "id1", user_name := "Alice", user_url := "http://u",
          user_reviews := 12, relative_date := "2 weeks ago",
          text_date := some (epochUs + 1700000000000000) } := by decide

set_option maxRecDepth 8000 in
example : issuedOf (runLoop 0 cfgC1 10 (initSt scriptC1)) = 3 := by decide
set_option maxRecDepth 8000 in
example : isSuccess (runLoop 0 cfgC1 10 (initSt scriptC1)) = false := by decide
set_option maxRecDepth 8000 in
example : reviewsLen (runLoop 0 cfgC3 5 (initSt scriptC3)) = some 2 := by decide
set_option maxRecDepth 8000 in
example : issuedOf (runLoop 0 cfgC3 5 (initSt scriptC3)) = 2 := by decide
example : isFailure (runLoop 0 cfgC4 2 (initSt [.exn])) = true := by decide
example : finalWOf (runLoop 0 cfgC4 2 (initSt [.exn])) = none := by decide
example : issuedOf (runLoop 0 cfgC4 2 (initSt [.exn])) = 1 := by decide

set_option maxRecDepth 8000 in
example :
    reviewsLen (runLoop 0 { cfgC1 with n_reviews := some 1 } 5
      (initSt [.ok (some (envWith (.str "T1") "id1")), .exn])) = some 1 := by decide
set_option maxRecDepth 8000 in
example :
    issuedOf (runLoop 0 { cfgC1 with n_reviews := some 1 } 5
      (initSt [.ok (some (envWith (.str "T1") "id1")), .exn])) = 1 := by decide

theorem natChars_ne_nil (n : Nat) : natChars n ≠ [] := by
  unfold natChars; split <;> simp

theorem intStr_ne_empty (n : Int) : intStr n ≠ "" := by
  cases n with
  | ofNat m =>
    intro h
    exact natChars_ne_nil m (by simpa using congrArg String.data h)
  | negSucc m =>
    intro h
    simpa [intStr] using congrArg String.data h

theorem truthy_pyStr_ne (v : JVal) (h : truthy v = true) : pyStr v ≠ "" := by
  cases v with
  | null => simp [truthy] at h
  | bool b =>
    cases b with
    | false => simp [truthy] at h
    | true => simp [pyStr]
  | num n => simpa [pyStr] using intStr_ne_empty n
  | str s =>
    simp [truthy] at h
    simpa [pyStr] using h
  | arr xs =>
    intro heq
    simpa [pyStr, String.data_append] using congrArg String.data heq

theorem userPhase_rid (r : ReviewRecord) (u : JVal) : (userPhase r u).review_id = r.review_id := by
  unfold userPhase
  cases u <;> try rfl
  dsimp only
  repeat' split <;> try rfl

theorem metaTs_rid (r : ReviewRecord) (md : List JVal) :
    (exVal (metaTs r md)).review_id = r.review_id := by
  unfold metaTs
  repeat' split <;> try rfl

theorem metaRest_rid (r : ReviewRecord) (md : List JVal) :
    (metaRest r md).review_id = r.review_id := by
  unfold metaRest
  dsimp only
  repeat' split <;> try rfl
  all_goals simp [userPhase_rid]

theorem metaPhase_rid (r : ReviewRecord) (m : JVal) :
    (exVal (metaPhase r m)).review_id = r.review_id := by
  cases m <;> try rfl
  rename_i md
  unfold metaPhase
  dsimp only
  cases h : metaTs r md with
  | error r2 =>
    have h2 := metaTs_rid r md
    rw [h] at h2
    simp [exVal] at h2
    simpa [exVal] using h2
  | ok r2 =>
    have h2 := metaTs_rid r md
    rw [h] at h2
    simp [exVal] at h2
    simp [exVal, metaRest_rid, h2]

theorem contentPhase_rid (r : ReviewRecord) (c : JVal) :
    (contentPhase r c).review_id = r.review_id := by
  unfold contentPhase
  cases c <;> try rfl
  dsimp only
  repeat' split <;> try rfl

theorem responseTs_rid (r : ReviewRecord) (rd : List JVal) :
    (exVal (responseTs r rd)).review_id = r.review_id := by
  unfold responseTs
  repeat' split <;> try rfl

theorem responseRest_rid (r : ReviewRecord) (rd : List JVal) :
    (responseRest r rd).review_id = r.review_id := by
  unfold responseRest
  dsimp only
  repeat' split <;> try rfl

theorem responsePhase_rid (r : ReviewRecord) (x : JVal) :
    (exVal (responsePhase r x)).review_id = r.review_id := by
  cases x <;> try rfl
  rename_i rd
  unfold responsePhase
  dsimp only
  cases h : responseTs r rd with
  | error r2 =>
    have h2 := responseTs_rid r rd
    rw [h] at h2
    simp [exVal] at h2
    simpa [exVal] using h2
  | ok r2 =>
    have h2 := responseTs_rid r rd
    rw [h] at h2
    simp [exVal] at h2
    simp [exVal, responseRest_rid, h2]

theorem fallbackPhase_rid (now : Int) (r : ReviewRecord) :
    (fallbackPhase now r).review_id = r.review_id := by
  unfold fallbackPhase
  dsimp only
  repeat' split <;> try rfl

theorem afterId_rid (now : Int) (v : JVal) (n : Nat) (r1 : ReviewRecord) :
    (afterId now v n r1).review_id = r1.review_id := by
  unfold afterId
  cases h : metaPhase r1 (pyIdx v 1) with
  | error r2 =>
    have h2 := metaPhase_rid r1 (pyIdx v 1)
    rw [h] at h2
    simpa [exVal] using h2
  | ok r2 =>
    have h2 := metaPhase_rid r1 (pyIdx v 1)
    rw [h] at h2
    simp [exVal] at h2
    dsimp only
    have hc : (if 2 < n then contentPhase r2 (pyIdx v 2) else r2).review_id = r2.review_id := by
      split
      · exact contentPhase_rid _ _
      · rfl
    cases h4 : (if 3 < n then responsePhase (if 2 < n then contentPhase r2 (pyIdx v 2) else r2) (pyIdx v 3)
        else Except.ok (if 2 < n then contentPhase r2 (pyIdx v 2) else r2)) with
    | error r5 =>
      have h5 : r5.review_id = (if 2 < n then contentPhase r2 (pyIdx v 2) else r2).review_id := by
        rcases (em (3 < n)) with h3 | h3
        · rw [if_pos h3] at h4
          have := responsePhase_rid (if 2 < n then contentPhase r2 (pyIdx v 2) else r2) (pyIdx v 3)
          rw [h4] at this
          simpa [exVal] using this
        · rw [if_neg h3] at h4
          cases h4
      rw [h5, hc, h2]
    | ok r5 =>
      have h5 : r5.review_id = (if 2 < n then contentPhase r2 (pyIdx v 2) else r2).review_id := by
        rcases (em (3 < n)) with h3 | h3
        · rw [if_pos h3] at h4
          have := responsePhase_rid (if 2 < n then contentPhase r2 (pyIdx v 2) else r2) (pyIdx v 3)
          rw [h4] at this
          simpa [exVal] using this
        · rw [if_neg h3] at h4
          cases h4
          rfl
      rw [fallbackPhase_rid, h5, hc, h2]

theorem rid_master (now : Int) (xs : List JVal) :
    (extract_review_data now (.arr xs)).review_id =
      if 2 ≤ xs.length ∧ truthy (xs.getD 0 .null) = true then pyStr (xs.getD 0 .null) else "" := by
  by_cases hemp : xs.isEmpty
  · have hnil : xs = [] := by simpa using hemp
    subst hnil
    simp [extract_review_data, truthy, defaultRecord]
  · by_cases hlen : xs.length < 2
    · simp only [extract_review_data, pyLen]
      rw [if_neg (by simp [truthy, hemp])]
      rw [if_pos hlen]
      have hno : ¬(2 ≤ xs.length ∧ truthy (xs.getD 0 JVal.null) = true) := fun hh => by omega
      rw [if_neg hno]
      simp [defaultRecord]
    · have h2 : 2 ≤ xs.length := by omega
      simp only [extract_review_data, pyLen]
      rw [if_neg (by simp [truthy, hemp])]
      rw [if_neg hlen]
      rw [afterId_rid]
      simp only [pyIdx]
      by_cases ht : truthy (xs.getD 0 .null) = true
      · rw [if_pos ht, if_pos (And.intro h2 ht)]
      · rw [if_neg ht, if_neg (fun hh => ht hh.2)]
        simp [defaultRecord]

set_option maxRecDepth 40000

/-- C1: the spec treats an absent or short envelope as the natural
end-of-results signal — the driver is to terminate the pagination loop,
issue no further page request, and return the accumulated records as a
success regardless of the cursor left over from the previous page.  The
code violates this: on `scriptC1` (page 1 returns cursor `"T1"` and one
record; page 2 returns the empty envelope) the `break` only leaves the
retry loop, the post-page check consults the stale nonempty cursor, and a
third page request is issued; the run never returns success on this
script. -/
theorem C1_short_envelope_continues :
    issuedOf (runLoop 0 cfgC1 10 (initSt scriptC1)) = 3 ∧
    isSuccess (runLoop 0 cfgC1 10 (initSt scriptC1)) = false :=
  ⟨by decide, by decide⟩

/-- C2: the spec says `map_review` never raises and that a failing field
degrades alone, sibling extractable fields staying populated.  The code
violates the sibling clause: on `rawBig` (timestamp `10^400` µs) the
int/int division raises `OverflowError`, which the local
`(ValueError, TypeError, OSError)` handler does not catch; the
function-level blanket handler returns the partial record, so the
extractable `user_name` stays `""` — while `rawOk`, identical except for
an in-range timestamp, does extract `"Alice"`. -/
theorem C2_overflow_aborts_siblings :
    (extract_review_data 0 rawBig).user_name = "" ∧
    (extract_review_data 0 rawBig).review_id = "id1" ∧
    (extract_review_data 0 rawOk).user_name = "Alice" :=
  ⟨by decide, by decide, by decide⟩

/-- C3, counterexample: with the target count set to `0`, the claim says
the driver stops after the first successful page (accumulated ≥ 0) and
returns exactly zero records; the code's `if n_reviews and ...` treats a
zero target as unset, fetches a second page, and returns both records
untrimmed. -/
theorem C3_target_zero_cx :
    reviewsLen (runLoop 0 cfgC3 5 (initSt scriptC3)) = some 2 ∧
    issuedOf (runLoop 0 cfgC3 5 (initSt scriptC3)) = 2 :=
  ⟨by decide, by decide⟩

/-- C3, amended to a positive target count: once the retry loop of a page
falls through with accumulated ≥ target, the driver returns success with
exactly the first `target` records, consuming no further scripted
response and issuing no further request. -/
theorem C3_target_stop (now : Int) (cfg : ScrapeCfg) (fuel : Nat) (st st' : DrvSt) (k : Nat)
    (hA : attempt now cfg cfg.n_retries st = .ok st')
    (hT : cfg.n_reviews = some k) (hk : 0 < k) (hLen : k ≤ st'.acc.length) :
    runLoop now cfg (fuel + 1) st = .success (st'.acc.take k) (finishSt cfg st') ∧
    (st'.acc.take k).length = k ∧
    (finishSt cfg st').script = st'.script ∧
    (finishSt cfg st').issued = st'.issued := by
  have hk0 : k ≠ 0 := by omega
  have hHit : targetHit cfg.n_reviews st'.acc.length = true := by
    simp [targetHit, hT, hk0]
    omega
  refine ⟨?_, ?_, ?_, ?_⟩
  · simp only [runLoop, hA, hHit, if_true]
    rw [show trimFinal cfg.n_reviews st'.acc = st'.acc.take k by
      rw [hT]; simp [trimFinal, hk0]]
  · rw [List.length_take]; omega
  · unfold finishSt; split <;> rfl
  · unfold finishSt; split <;> rfl

/-- C3 witness: on a single page yielding one record with target one, the
driver stops with exactly that record. -/
theorem C3_target_stop_witness :
    runLoop 0 cfgC3w 4 (initSt scriptC3w) = .success (stC3w.acc.take 1) (finishSt cfgC3w stC3w) ∧
    (stC3w.acc.take 1).length = 1 ∧
    (finishSt cfgC3w stC3w).script = stC3w.script ∧
    (finishSt cfgC3w stC3w).issued = stC3w.issued :=
  C3_target_stop 0 cfgC3w 3 (initSt scriptC3w) stC3w 1 rfl rfl (by decide) (by decide)

/-- C4, counterexample: the claim says the partial accumulator is written
to the final output path whenever one was given; when the retry budget is
exhausted on the very first page the accumulator is empty and the guard
`if all_reviews and output_file` skips the write, so nothing reaches the
output path despite it being given. -/
theorem C4_empty_acc_cx :
    isFailure (runLoop 0 cfgC4 2 (initSt [.exn])) = true ∧
    finalWOf (runLoop 0 cfgC4 2 (initSt [.exn])) = none :=
  ⟨by decide, by decide⟩

/-- C4, amended to a nonempty accumulator: when a page's retry budget is
exhausted the invocation propagates the failure, the checkpoint (temp)
file keeps its contents undeleted, and — when an output path was given
and the accumulator is nonempty — the partial accumulator is written to
the final output path before the failure surfaces. -/
theorem C4_exhausted_behaviour (now : Int) (cfg : ScrapeCfg) (fuel : Nat) (st st' : DrvSt)
    (hA : attempt now cfg cfg.n_retries st = .exhausted st') :
    runLoop now cfg (fuel + 1) st = .failure (exhaustSt cfg st') ∧
    (exhaustSt cfg st').temp = st'.temp ∧
    (cfg.hasOutput = true → st'.acc ≠ [] →
      (exhaustSt cfg st').finalW = _save_final_output st'.finalW st'.acc cfg.fmt) := by
  refine ⟨by simp [runLoop, hA], ?_, ?_⟩
  · unfold exhaustSt; split <;> rfl
  · intro hO hAcc
    unfold exhaustSt
    rw [if_pos]
    simp [hO, hAcc]

/-- C4 witness: a mid-run state with one accumulated record and a
checkpoint on disk hits a transport failure that exhausts the budget; the
run fails, the checkpoint survives, and the partial accumulator reaches
the output file. -/
theorem C4_exhausted_behaviour_witness :
    runLoop 0 cfgC4w 1 stC4w = .failure (exhaustSt cfgC4w stC4x) ∧
    (exhaustSt cfgC4w stC4x).temp = stC4x.temp ∧
    (cfgC4w.hasOutput = true → stC4x.acc ≠ [] →
      (exhaustSt cfgC4w stC4x).finalW = _save_final_output stC4x.finalW stC4x.acc cfgC4w.fmt) :=
  C4_exhausted_behaviour 0 cfgC4w 0 stC4w stC4x rfl

/-- C5, counterexample: the claim says a truthy element at index 0 always
becomes `review_id`; the early return `if not review_array or
len(review_array) < 2` leaves `review_id` at its empty default for the
one-element array `["id1"]`. -/
theorem C5_short_array_cx :
    (extract_review_data 0 (.arr [.str "id1"])).review_id = "" := by decide

/-- C5, amended with the two-element minimum: for arrays of length at
least two, a truthy element at index 0 is stringified into `review_id`,
and `review_id` is the empty default exactly when the array is shorter
than two or that element is absent or falsy. -/
theorem C5_review_id (now : Int) (xs : List JVal) :
    ((extract_review_data now (.arr xs)).review_id = "" ↔
      (xs.length < 2 ∨ truthy (xs.getD 0 .null) = false)) ∧
    (2 ≤ xs.length → truthy (xs.getD 0 .null) = true →
      (extract_review_data now (.arr xs)).review_id = pyStr (xs.getD 0 .null)) := by
  have hm := rid_master now xs
  constructor
  · rw [hm]
    by_cases h2 : 2 ≤ xs.length ∧ truthy (xs.getD 0 .null) = true
    · rw [if_pos h2]
      constructor
      · intro he; exact absurd he (truthy_pyStr_ne _ h2.2)
      · rintro (h | h)
        · omega
        · rw [h2.2] at h; cases h
    · rw [if_neg h2]
      constructor
      · intro _
        by_cases hl : xs.length < 2
        · exact Or.inl hl
        · right
          cases htr : truthy (xs.getD 0 .null)
          · rfl
          · exact absurd ⟨by omega, htr⟩ h2
      · intro _; rfl
  · intro ha hb; rw [hm, if_pos ⟨ha, hb⟩]

/-- C5 witness at a concrete two-element array with a truthy id. -/
theorem C5_review_id_witness :
    (extract_review_data 0 (.arr [.str "idX", .null])).review_id =
      pyStr ([JVal.str "idX", JVal.null].getD 0 .null) :=
  (C5_review_id 0 [.str "idX", .null]).2 (by decide) (by decide)

/-- C8: `extract_pagination_token` returns the stringified second
top-level element, and returns the empty string exactly when the envelope
has fewer than two elements or that element is falsy/absent (a truthy
value never stringifies to the empty string). -/
theorem C8_cursor (env : List JVal) :
    (1 < env.length → truthy (env.getD 1 .null) = true →
      extract_pagination_token env = pyStr (env.getD 1 .null)) ∧
    (extract_pagination_token env = "" ↔
      (env.length ≤ 1 ∨ truthy (env.getD 1 .null) = false)) := by
  constructor
  · intro h1 h2
    unfold extract_pagination_token
    rw [if_pos ⟨h1, h2⟩]
  · unfold extract_pagination_token
    by_cases h : 1 < env.length ∧ truthy (env.getD 1 .null) = true
    · rw [if_pos h]
      constructor
      · intro he; exact absurd he (truthy_pyStr_ne _ h.2)
      · rintro (hl | ht)
        · omega
        · rw [h.2] at ht; cases ht
    · rw [if_neg h]
      constructor
      · intro _
        by_cases hl : env.length ≤ 1
        · exact Or.inl hl
        · right
          cases htr : truthy (env.getD 1 .null)
          · rfl
          · exact absurd ⟨by omega, htr⟩ h
      · intro _; rfl

/-- C8 witness at the envelope `[null, "TOKEN123", ...]`. -/
theorem C8_cursor_witness :
    extract_pagination_token [JVal.null, JVal.str "TOKEN123", JVal.null] =
      pyStr ([JVal.null, JVal.str "TOKEN123", JVal.null].getD 1 .null) :=
  (C8_cursor [JVal.null, JVal.str "TOKEN123", JVal.null]).1 (by decide) (by decide)

/-- C9: checkpointing is a deterministic function of the record list and
format — running `_save_to_temp` twice in a row with the same accumulator
leaves the same file contents as running it once (JSON always rewrites
the whole file; CSV leaves the file untouched for an empty accumulator
both times). -/
theorem C9_checkpoint_idempotent (prev : Option String) (revs : List ReviewRecord) (fmt : OutFormat) :
    _save_to_temp (_save_to_temp prev revs fmt) revs fmt = _save_to_temp prev revs fmt := by
  unfold _save_to_temp
  cases h : serializeReviews revs fmt <;> simp

/-- C10: the synchronous wrapper forwards its constructor parameters and
call arguments verbatim and runs the same coroutine to completion, so for
every configuration, url, target, format, output choice and response
script it returns the identical result and produces the identical file
effects. -/
theorem C10_sync_refines_async (n_retries : Nat) (url : String) (n_reviews : Option Nat)
    (fmt : OutFormat) (hasOutput : Bool) (now : Int) (script : List ReqResult) (fuel : Nat) :
    scrape_reviews_sync n_retries url n_reviews fmt hasOutput now script fuel =
      scrape_reviews n_retries url n_reviews fmt hasOutput now script fuel := rfl

/-- C6, counterexample: the claim says `parse_relative_date` never raises
for any input including arbitrarily large quantities; the quantity
2000000000 days overflows the `timedelta` constructor and the call
raises `OverflowError` instead of returning. -/
theorem C6_overflow_cx :
    parse_relative_date "2000000000 days ago" epochUs = .error .overflow := by decide

/-- C6, amended: `parse_relative_date` returns none exactly when the text
is empty or matches no supported pattern; when a pattern matches it
returns an instant, except that it raises an overflow error when the
matched duration reaches the `timedelta` bound or the subtraction leaves
the representable `datetime` range. -/
theorem C6_never_raises_qualified (text : String) (ref : Int) :
    (parse_relative_date text ref = .ok none ↔
      (text = "" ∨ classifyNorm (pyNormalize text) = .nohit)) ∧
    (∀ e, parse_relative_date text ref = .error e →
      ∃ d, matchedDur text = some d ∧
        (tdMaxUs ≤ d ∨ ref - d < 0 ∨ dtTotalUs ≤ ref - d)) := by
  by_cases hempty : text = ""
  · subst hempty
    constructor
    · simp [parse_relative_date]
    · intro e he
      simp [parse_relative_date] at he
  · cases hc : classifyNorm (pyNormalize text) with
    | exact =>
      have e1 : parse_relative_date text ref = .ok (some ref) := by
        unfold parse_relative_date
        rw [if_neg hempty, hc]
      rw [e1]
      constructor
      · simp [hempty, hc]
      · intro e he
        cases he
    | yesterday =>
      have e1 : parse_relative_date text ref = dtSub ref usPerDay := by
        unfold parse_relative_date
        rw [if_neg hempty, hc]
      rw [e1]
      unfold dtSub
      constructor
      · split <;> simp [hempty, hc]
      · intro e he
        split at he
        · cases he
        · rename_i hcond
          refine ⟨usPerDay, by simp [matchedDur, hc], ?_⟩
          rcases not_and_or.mp hcond with h | h
          · exact Or.inr (Or.inl (by omega))
          · exact Or.inr (Or.inr (by omega))
    | dur d =>
      have e1 : parse_relative_date text ref =
          (if d < tdMaxUs then dtSub ref d else .error .overflow) := by
        unfold parse_relative_date
        rw [if_neg hempty, hc]
      rw [e1]
      constructor
      · split
        · unfold dtSub
          split <;> simp [hempty, hc]
        · simp [hempty, hc]
      · intro e he
        split at he
        · unfold dtSub at he
          split at he
          · cases he
          · rename_i hlt hcond
            refine ⟨d, by simp [matchedDur, hc], ?_⟩
            rcases not_and_or.mp hcond with h | h
            · exact Or.inr (Or.inl (by omega))
            · exact Or.inr (Or.inr (by omega))
        · rename_i hge
          exact ⟨d, by simp [matchedDur, hc], Or.inl (by omega)⟩
    | nohit =>
      have e1 : parse_relative_date text ref = .ok none := by
        unfold parse_relative_date
        rw [if_neg hempty, hc]
      rw [e1]
      constructor
      · simp [hc]
      · intro e he
        cases he

/-- C6 witness: the overflowing quantity instantiates the error clause. -/
theorem C6_never_raises_qualified_witness :
    ∃ d, matchedDur "2000000000 days ago" = some d ∧
      (tdMaxUs ≤ d ∨ epochUs - d < 0 ∨ dtTotalUs ≤ epochUs - d) :=
  (C6_never_raises_qualified "2000000000 days ago" epochUs).2 .overflow (by decide)

/-- C7, counterexample: the claim quantifies over every reference
instant; at the minimum representable instant, `resolve("yesterday", T)`
raises an overflow error instead of returning T minus one day. -/
theorem C7_min_ref_cx :
    parse_relative_date "yesterday" 0 = .error .overflow := by decide

/-- C7, amended to reference instants at least 30 days above the minimum
representable instant (and within the `datetime` range): the resolver
returns exactly the specified duration before T for the supported
patterns — 14 days for "2 weeks ago", 30 days for "a month ago", one day
for "yesterday" — and none for the empty string and for "gibberish"
(months approximated as 30 days). -/
theorem C7_resolve_cases (T : Int) (hLo : 30 * usPerDay ≤ T) (hHi : T < dtTotalUs) :
    parse_relative_date "2 weeks ago" T = .ok (some (T - 14 * usPerDay)) ∧
    parse_relative_date "a month ago" T = .ok (some (T - 30 * usPerDay)) ∧
    parse_relative_date "yesterday" T = .ok (some (T - usPerDay)) ∧
    parse_relative_date "" T = .ok none ∧
    parse_relative_date "gibberish" T = .ok none := by
  have hd : (0 : Int) < usPerDay := by decide
  have h1 : classifyNorm (pyNormalize "2 weeks ago") = .dur (14 * usPerDay) := by decide
  have h2 : classifyNorm (pyNormalize "a month ago") = .dur (30 * usPerDay) := by decide
  have h3 : classifyNorm (pyNormalize "yesterday") = .yesterday := by decide
  have h5 : classifyNorm (pyNormalize "gibberish") = .nohit := by decide
  refine ⟨?_, ?_, ?_, by simp [parse_relative_date], ?_⟩
  · have e1 : parse_relative_date "2 weeks ago" T =
        (if 14 * usPerDay < tdMaxUs then dtSub T (14 * usPerDay) else .error .overflow) := by
      unfold parse_relative_date
      rw [if_neg (by decide), h1]
    rw [e1, if_pos (by decide)]
    unfold dtSub
    rw [if_pos ⟨by omega, by omega⟩]
  · have e1 : parse_relative_date "a month ago" T =
        (if 30 * usPerDay < tdMaxUs then dtSub T (30 * usPerDay) else .error .overflow) := by
      unfold parse_relative_date
      rw [if_neg (by decide), h2]
    rw [e1, if_pos (by decide)]
    unfold dtSub
    rw [if_pos ⟨by omega, by omega⟩]
  · have e1 : parse_relative_date "yesterday" T = dtSub T usPerDay := by
      unfold parse_relative_date
      rw [if_neg (by decide), h3]
    rw [e1]
    unfold dtSub
    rw [if_pos ⟨by omega, by omega⟩]
  · have e1 : parse_relative_date "gibberish" T = .ok none := by
      unfold parse_relative_date
      rw [if_neg (by decide), h5]
    rw [e1]

/-- C7 witness at the epoch instant. -/
theorem C7_resolve_cases_witness :
    parse_relative_date "2 weeks ago" epochUs = .ok (some (epochUs - 14 * usPerDay)) ∧
    parse_relative_date "a month ago" epochUs = .ok (some (epochUs - 30 * usPerDay)) ∧
    parse_relative_date "yesterday" epochUs = .ok (some (epochUs - usPerDay)) ∧
    parse_relative_date "" epochUs = .ok none ∧
    parse_relative_date "gibberish" epochUs = .ok none :=
  C7_resolve_cases epochUs (by decide) (by decide)
